import Mathlib

/-!
Verification of the weather subsystem and routes of the We-ather repository.

The development shallowly embeds the JavaScript source:

* `Weather.getWeatherData` embeds `getWeatherData` of `services/weather.js`
  (the three-stage grid-point → daily forecast → hourly forecast pipeline).
  The stage-2/3 fetches are supplied as oracles, and the function also
  returns the list of URLs it actually fetched, so that fail-fast
  properties ("no stage-2/3 call was made") are statable.
* `Weather.makeRequest` embeds `makeRequest` of the same file: input
  validation, resolution of relative paths against the fixed base host,
  URL parsing, the outbound HTTPS request, redirect following and
  status-code handling.  The network and the JSON parser are oracles
  (`NetEnv`); the unbounded redirect recursion of the source is embedded
  with a fuel parameter whose exhaustion is marked by a dedicated error
  that no theorem ever relies on.
* `Routes` embeds the Express handlers of `index.js`: the `auth`
  session guard, the `GET /api/weather` route and the
  `DELETE /api/posts/:id` route with its owning-user check.

JavaScript truthiness on optional string fields (missing and the empty
string are falsy) is embedded by `optStrTruthy`.
-/

namespace Weather

/-- JS truthiness of an optional string: `undefined`/`null`/missing and the
empty string are falsy, every other string is truthy. -/
def optStrTruthy : Option String → Bool
  | none => false
  | some s => !s.data.isEmpty

/-- JS falsiness test of a string (`!s`): true exactly on the empty string. -/
def strEmpty (s : String) : Bool :=
  s.data.isEmpty

/-- JS `String.prototype.trim`, embedded on the character list: strip
leading and trailing whitespace. -/
def strTrim (s : String) : String :=
  String.mk (((s.data.dropWhile Char.isWhitespace).reverse.dropWhile Char.isWhitespace).reverse)

/-- The `city`/`state` record inside `relativeLocation.properties` of the
grid-point payload. -/
structure LocationProps where
  city : String
  state : String
deriving Repr, DecidableEq

/-- The `relativeLocation` object of the grid-point payload; its
`properties` field may be absent (`relativeLocation?.properties`). -/
structure RelativeLocation where
  properties : Option LocationProps
deriving Repr, DecidableEq

/-- The `properties` object of the stage-1 (grid point) payload.  The two
URL fields are strings when present; `none` embeds an absent field. -/
structure PointsProperties where
  forecast : Option String
  forecastHourly : Option String
  relativeLocation : Option RelativeLocation
deriving Repr, DecidableEq

/-- The stage-1 payload: `properties` may be absent
(`!pointsData.properties`). -/
structure PointsData where
  properties : Option PointsProperties
deriving Repr, DecidableEq

/-- One forecast period, opaque pass-through data for the pipeline. -/
structure Period where
  name : String
  temperature : Int
  shortForecast : String
deriving Repr, DecidableEq

/-- The `units` object of a forecast payload, kept opaque as a key/value
list.  As a JS object it is truthy even when empty. -/
abbrev Units := List (String × String)

/-- The `properties` object of a stage-2/3 (forecast) payload. -/
structure ForecastProperties where
  periods : Option (List Period)
  units : Option Units
deriving Repr, DecidableEq

/-- A stage-2/3 payload: `properties` may be absent
(`forecastData.properties?.…`). -/
structure ForecastData where
  properties : Option ForecastProperties
deriving Repr, DecidableEq

/-- The object literal assembled and returned by `getWeatherData`. -/
structure WeatherSnapshot where
  location : LocationProps
  current : Option Period
  forecast : List Period
  units : Units
deriving Repr, DecidableEq

/-- The distinct rejection reasons of the pipeline, one per `throw`/rethrow
site of `getWeatherData`.  The spec names the first three
`InvalidUpstreamShape`, `MissingForecastUrl` and `MissingHourlyUrl`. -/
inductive PipelineError where
  /-- Message `Invalid response from points API` (line 17). -/
  | invalidUpstreamShape
  /-- Message `Unable to get forecast URL from points API` (line 21). -/
  | missingForecastUrl
  /-- Message `Unable to get hourly forecast URL from points API` (line 25). -/
  | missingHourlyUrl
  /-- Message `Forecast URL is missing` (line 31): the URL was truthy but
  whitespace-only, so it trimmed to the empty string. -/
  | forecastUrlEmpty
  /-- Message `Hourly forecast URL is missing` (line 40). -/
  | hourlyUrlEmpty
  /-- A stage-2/3 `makeRequest` rejection, rethrown by the outer catch. -/
  | fetchFailed (msg : String)
  /-- The `TypeError` thrown when a stage-2/3 payload is JSON `null` and
  the assembly accesses `.properties` on it. -/
  | nullPayload
deriving Repr, DecidableEq

/-- Embedding of `getWeatherData` (services/weather.js, lines 10–59).
The stage-1 payload is given directly (`none` embeds a JSON `null`
response); the stage-2 and stage-3 fetches are oracles from the fetched
URL to either a rejection message or a payload (`none` again embedding
JSON `null`).  The second component of the result is the list of URLs
fetched in stages 2–3, in order. -/
def getWeatherData (pointsData : Option PointsData)
    (fetchForecast fetchHourly : String → Except String (Option ForecastData)) :
    Except PipelineError WeatherSnapshot × List String :=
  match pointsData with
  | none => (.error .invalidUpstreamShape, [])
  | some pd =>
    match pd.properties with
    | none => (.error .invalidUpstreamShape, [])
    | some props =>
      if !optStrTruthy props.forecast then
        (.error .missingForecastUrl, [])
      else if !optStrTruthy props.forecastHourly then
        (.error .missingHourlyUrl, [])
      else
        let forecastUrl := strTrim (props.forecast.getD "")
        if strEmpty forecastUrl then
          (.error .forecastUrlEmpty, [])
        else
          match fetchForecast forecastUrl with
          | .error m => (.error (.fetchFailed m), [forecastUrl])
          | .ok forecastPayload =>
            let hourlyUrl := strTrim (props.forecastHourly.getD "")
            if strEmpty hourlyUrl then
              (.error .hourlyUrlEmpty, [forecastUrl])
            else
              match fetchHourly hourlyUrl with
              | .error m => (.error (.fetchFailed m), [forecastUrl, hourlyUrl])
              | .ok hourlyPayload =>
                match forecastPayload, hourlyPayload with
                | some forecastData, some hourlyData =>
                  (.ok
                    { location :=
                        (props.relativeLocation.bind (fun r => r.properties)).getD
                          { city := "Unknown", state := "Unknown" },
                      current :=
                        ((hourlyData.properties.bind (fun p => p.periods)).getD []).head?,
                      forecast :=
                        (forecastData.properties.bind (fun p => p.periods)).getD [],
                      units :=
                        (forecastData.properties.bind (fun p => p.units)).getD [] },
                   [forecastUrl, hourlyUrl])
                | _, _ => (.error .nullPayload, [forecastUrl, hourlyUrl])

/-- JS `String.prototype.startsWith`, embedded on the character list. -/
def strStartsWith (s p : String) : Bool :=
  p.data.isPrefixOf s.data

/-- The base host hard-coded in `makeRequest` (line 105). -/
def baseHost : String := "https://api.weather.gov"

/-- Resolution of a (trimmed) input against the base host
(lines 102–106): inputs already carrying an `http://` or `https://`
scheme pass through; otherwise the base host is prepended, with a `/`
inserted exactly when the input does not itself start with one. -/
def resolveUrl (trimmedUrl : String) : String :=
  if strStartsWith trimmedUrl "http://" || strStartsWith trimmedUrl "https://" then
    trimmedUrl
  else
    baseHost ++ (if strStartsWith trimmedUrl "/" then "" else "/") ++ trimmedUrl

/-- The components of `new URL(fullUrl)` that the source reads or could
read: scheme, credentials, hostname, port, pathname, search, fragment. -/
structure ParsedUrl where
  scheme : String
  userinfo : String
  hostname : String
  port : Option String
  pathname : String
  search : String
  fragment : String
deriving Repr, DecidableEq

/-- Splits an authority at its last at-sign into credentials and
host:port, as WHATWG URL parsing does; no at-sign means no
credentials. -/
def splitUserinfo (authority : List Char) : List Char × List Char :=
  if authority.contains '@' then
    let rev := authority.reverse
    let hostRev := rev.takeWhile (fun c => c != '@')
    (rev.drop (hostRev.length + 1) |>.reverse, hostRev.reverse)
  else
    ([], authority)

/-- Embedding of `new URL(fullUrl)` (line 110) for the `http(s)` URLs this
code constructs: doing the structural split into scheme, credentials,
hostname, port, pathname (defaulting to `/`), search and fragment, and
failing (`none`, the constructor throwing) when the host is empty. -/
def parseUrl (s : String) : Option ParsedUrl :=
  let schemeRest : Option (String × String) :=
    if strStartsWith s "https://" then some ("https", s.drop 8)
    else if strStartsWith s "http://" then some ("http", s.drop 7)
    else none
  match schemeRest with
  | none => none
  | some (scheme, rest) =>
    let cs := rest.data
    let authority := cs.takeWhile (fun c => c != '/' && c != '?' && c != '#')
    let tail0 := cs.drop authority.length
    let ui := splitUserinfo authority
    let hostname := ui.2.takeWhile (fun c => c != ':')
    let port : Option String :=
      if hostname.length < ui.2.length then
        some (String.mk (ui.2.drop (hostname.length + 1)))
      else none
    if hostname.isEmpty then
      none
    else
      let path := tail0.takeWhile (fun c => c != '?' && c != '#')
      let tail1 := tail0.drop path.length
      let query := tail1.takeWhile (fun c => c != '#')
      let frag := tail1.drop query.length
      some
        { scheme := scheme
          userinfo := String.mk ui.1
          hostname := String.mk hostname
          port := port
          pathname := if path.isEmpty then "/" else String.mk path
          search := if query = ['?'] then "" else String.mk query
          fragment := String.mk frag }

/-- The constant headers of every outbound request (lines 120–123). -/
def requestHeaders : List (String × String) :=
  [("User-Agent", "We-ather App (contact: your-email@example.com)"),
   ("Accept", "application/json")]

/-- The request the `https` module actually issues.  `scheme` and `port`
record the transport: the options object built on lines 116–124 passes no
`port` and is handed to `https.request`, which always uses TLS on the
default port 443. -/
structure OutboundRequest where
  scheme : String
  port : Nat
  hostname : String
  path : String
  method : String
  headers : List (String × String)
deriving Repr, DecidableEq

/-- The options object of lines 116–124: only `hostname` and
`pathname + search` are taken from the parsed URL; credentials, explicit
port and fragment are dropped, and the transport is HTTPS on 443. -/
def requestOptions (u : ParsedUrl) : OutboundRequest :=
  { scheme := "https"
    port := 443
    hostname := u.hostname
    path := u.pathname ++ u.search
    method := "GET"
    headers := requestHeaders }

/-- The rejection reasons of `makeRequest`, one per `reject` site.  The
spec names them `InvalidInput`, `MalformedUrl`, `UpstreamHttpError` and
`ResponseParseError`. -/
inductive FetchError where
  /-- Message `URL is required` (line 93) or `URL is empty after
  trimming` (line 99). -/
  | invalidInput (msg : String)
  /-- Message `Invalid URL` with the original input (line 113). -/
  | malformedUrl (original : String)
  /-- Message `HTTP <status>: <excerpt>` (line 143), the excerpt being the
  first 200 characters of the body. -/
  | upstreamHttp (status : Nat) (excerpt : String)
  /-- Message `Failed to parse response` carrying the unparsable body
  (line 146). -/
  | parseError (body : String)
  /-- Embedding artifact only: the source recursion (line 131) has no
  depth cap, the embedding runs out of fuel.  No theorem relies on it. -/
  | fuelExhausted
deriving Repr, DecidableEq

/-- A JSON value, as produced by `JSON.parse`. -/
inductive Json where
  | null
  | bool (b : Bool)
  | num (n : Int)
  | str (s : String)
  | arr (elems : List Json)
  | obj (fields : List (String × Json))

/-- An upstream HTTP response: status code, optional `Location` header,
accumulated body. -/
structure HttpResponse where
  statusCode : Nat
  location : Option String
  body : String

/-- The platform oracles `makeRequest` runs against: the network
(`https.request`) and `JSON.parse` (returning `none` when it throws). -/
structure NetEnv where
  net : OutboundRequest → HttpResponse
  parse : String → Option Json

/-- The request-construction half of `makeRequest` (lines 91–124): input
presence check, trim, emptiness check, base-host resolution, URL parse,
options object. -/
def buildRequest (urlString : Option String) : Except FetchError OutboundRequest :=
  match urlString with
  | none => .error (.invalidInput "URL is required")
  | some s =>
    if strEmpty s then
      .error (.invalidInput "URL is required")
    else
      let trimmedUrl := strTrim s
      if strEmpty trimmedUrl then
        .error (.invalidInput "URL is empty after trimming")
      else
        match parseUrl (resolveUrl trimmedUrl) with
        | none => .error (.malformedUrl s)
        | some url => .ok (requestOptions url)

/-- Embedding of `makeRequest` (lines 90–157).  Returns the promise
outcome together with the list of outbound requests issued, in order.
`fuel` bounds the redirect recursion, which the source leaves unbounded;
every theorem below holds for all fuel values. -/
def makeRequest (env : NetEnv) : Nat → Option String → Except FetchError Json × List OutboundRequest
  | fuel, urlString =>
    match buildRequest urlString with
    | .error e => (.error e, [])
    | .ok options =>
      let res := env.net options
      if 300 ≤ res.statusCode ∧ res.statusCode < 400 ∧ optStrTruthy res.location = true then
        match fuel with
        | 0 => (.error .fuelExhausted, [options])
        | fuel' + 1 =>
          let inner := makeRequest env fuel' res.location
          (inner.1, options :: inner.2)
      else if res.statusCode = 200 then
        match env.parse res.body with
        | some j => (.ok j, [options])
        | none => (.error (.parseError res.body), [options])
      else
        (.error (.upstreamHttp res.statusCode (String.mk (res.body.data.take 200))), [options])

end Weather

namespace Routes

open Weather (optStrTruthy)

/-- The session principal (`req.session.user`). -/
structure SessionUser where
  id : Nat
  username : String
deriving Repr, DecidableEq

/-- The observable responses of the routes modelled here. -/
inductive RouteResponse where
  /-- `res.redirect(location)`, a 302. -/
  | redirect (location : String)
  /-- `res.status(status).json({ error })`. -/
  | jsonError (status : Nat) (error : String)
  /-- Control reached `weatherService.getWeatherData(parseFloat(lat),
  parseFloat(lon))` with these raw query strings. -/
  | weatherPipeline (lat lon : String)
deriving Repr, DecidableEq

/-- Whether a response is an API-style rejection (an error-status JSON
body) as opposed to a redirect or a handler invocation. -/
def isApiRejection : RouteResponse → Bool
  | .jsonError _ _ => true
  | _ => false

/-- The `auth` middleware (index.js lines 183–188): no session user means
a redirect to `/login`; otherwise `next()` runs the handler. -/
def authGuard (sessionUser : Option SessionUser) (handler : RouteResponse) : RouteResponse :=
  match sessionUser with
  | none => .redirect "/login"
  | some _ => handler

/-- The `GET /api/weather` handler body (lines 330–346), after the auth
guard: destructure `lat`/`lon` from the query, reject with 400 when
either is missing or empty (JS truthiness), otherwise call the weather
pipeline on the raw values.  No finiteness or range check occurs. -/
def apiWeatherHandler (lat lon : Option String) : RouteResponse :=
  if !optStrTruthy lat || !optStrTruthy lon then
    .jsonError 400 "Latitude and longitude are required"
  else
    .weatherPipeline (lat.getD "") (lon.getD "")

/-- The full `GET /api/weather` route (line 329): auth guard, then
handler. -/
def apiWeatherRoute (sessionUser : Option SessionUser) (lat lon : Option String) :
    RouteResponse :=
  authGuard sessionUser (apiWeatherHandler lat lon)

/-- A `posts` row, restricted to the fields the delete route reads. -/
structure Post where
  id : Nat
  user_id : Nat
  image_filename : Option String
deriving Repr, DecidableEq

/-- The uploads directory plus whether `fs.unlinkSync` would throw on
this request (disk errors are outside the control of the program). -/
structure FileSystem where
  files : List String
  unlinkFails : Bool
deriving Repr, DecidableEq

/-- The query `SELECT * FROM posts WHERE id = $1` run through
`db.oneOrNone`: `id` is a primary key, so lookup of the first match. -/
def findPost (posts : List Post) (postId : Nat) : Option Post :=
  posts.find? (fun p => p.id == postId)

/-- The best-effort image unlink of lines 493–503: check existence,
unlink, and swallow (log) any file error, leaving the state unchanged
when the unlink throws or the file is absent. -/
def deleteImageFile (fsState : FileSystem) (name : String) : FileSystem :=
  if fsState.unlinkFails then
    fsState
  else if fsState.files.contains name then
    { fsState with files := fsState.files.filter (fun f => f != name) }
  else
    fsState

/-- The observable outcomes of `DELETE /api/posts/:id`. -/
inductive DeleteResult where
  /-- Status 404 with message `Post not found`. -/
  | notFound
  /-- Status 403 with message `You can only delete your own posts`. -/
  | forbidden
  /-- Status 200 with `success: true` and message `Post deleted
  successfully`. -/
  | success
deriving Repr, DecidableEq

/-- Embedding of the `DELETE /api/posts/:id` handler body
(index.js lines 476–513), after the auth guard: look the row up, 404 when
absent, 403 when owned by another user, otherwise best-effort image
unlink followed by the row delete and a success response.  Returns the
outcome with the resulting posts table and file-system state. -/
def deletePostRoute (userId : Nat) (postId : Nat)
    (posts : List Post) (fsState : FileSystem) :
    DeleteResult × List Post × FileSystem :=
  match findPost posts postId with
  | none => (.notFound, posts, fsState)
  | some post =>
    if post.user_id ≠ userId then
      (.forbidden, posts, fsState)
    else
      let fsState' :=
        if optStrTruthy post.image_filename then
          deleteImageFile fsState (post.image_filename.getD "")
        else fsState
      (.success, posts.filter (fun p => p.id != postId), fsState')

end Routes

/-- A constant environment for concrete instantiations of the fetch
theorems: every request yields an empty 200 whose body parses to JSON
null. -/
def constEnv : Weather.NetEnv :=
  { net := fun _ => { statusCode := 200, location := none, body := "" }
    parse := fun _ => some .null }

/-- An environment in which the grid-point path for `(40.0066, -105.2633)`
answers with a 301 to a canonical grid path and everything else with a
200. -/
def redirectEnv : Weather.NetEnv :=
  { net := fun r =>
      if r.path = "/points/40.0066,-105.2633" then
        { statusCode := 301, location := some "/gridpoints/BOU/53,74", body := "Moved" }
      else
        { statusCode := 200, location := none, body := "null" }
    parse := fun _ => some .null }

/-- An environment in which every request is answered with a 404. -/
def notFoundEnv : Weather.NetEnv :=
  { net := fun _ => { statusCode := 404, location := none, body := "Not Found" }
    parse := fun _ => some .null }

section Theorems

open Weather Routes

/-- One-step unfolding of `makeRequest`, used to reason about a single
request/response round. -/
theorem makeRequest_eq (env : NetEnv) (fuel : Nat) (u : Option String) :
    makeRequest env fuel u =
      match buildRequest u with
      | .error e => (.error e, [])
      | .ok options =>
        let res := env.net options
        if 300 ≤ res.statusCode ∧ res.statusCode < 400 ∧ optStrTruthy res.location = true then
          match fuel with
          | 0 => (.error .fuelExhausted, [options])
          | fuel' + 1 =>
            let inner := makeRequest env fuel' res.location
            (inner.1, options :: inner.2)
        else if res.statusCode = 200 then
          match env.parse res.body with
          | some j => (.ok j, [options])
          | none => (.error (.parseError res.body), [options])
        else
          (.error (.upstreamHttp res.statusCode (String.mk (res.body.data.take 200))),
            [options]) := by
  rw [makeRequest]

/-- A non-empty string is truthy. -/
theorem optStrTruthy_of_ne (l : String) (hl : l ≠ "") : optStrTruthy (some l) = true := by
  cases l with
  | mk d =>
    cases d with
    | nil => exact absurd rfl hl
    | cons c cs => simp [optStrTruthy]

/-- C1: for every successful three-stage resolution, the assembled
`WeatherSnapshot` satisfies: `current` equals the first element of the
hourly period sequence (`none` when there are no periods), `forecast`
equals the daily period sequence verbatim (empty when absent), `units`
equals the daily units (empty when absent), and `location` equals the
relative-location properties of the grid-point response, defaulting to
`{city := "Unknown", state := "Unknown"}` when absent. -/
theorem weather_snapshot_assembly
    (pd : PointsData) (props : PointsProperties)
    (fetchForecast fetchHourly : String → Except String (Option ForecastData))
    (fd hd : ForecastData)
    (hprops : pd.properties = some props)
    (hf : optStrTruthy props.forecast = true)
    (hh : optStrTruthy props.forecastHourly = true)
    (hft : strEmpty (strTrim (props.forecast.getD "")) = false)
    (hht : strEmpty (strTrim (props.forecastHourly.getD "")) = false)
    (hF : fetchForecast (strTrim (props.forecast.getD "")) = .ok (some fd))
    (hH : fetchHourly (strTrim (props.forecastHourly.getD "")) = .ok (some hd)) :
    (getWeatherData (some pd) fetchForecast fetchHourly).1 = .ok
      { location := (props.relativeLocation.bind (fun r => r.properties)).getD
          { city := "Unknown", state := "Unknown" },
        current := ((hd.properties.bind (fun p => p.periods)).getD []).head?,
        forecast := (fd.properties.bind (fun p => p.periods)).getD [],
        units := (fd.properties.bind (fun p => p.units)).getD [] } := by
  simp [getWeatherData, hprops, hf, hh, hft, hht, hF, hH]

/-- Witness for C1 at a concrete full chain. -/
theorem weather_snapshot_assembly_witness :
    (getWeatherData
      (some ⟨some ⟨some "/f", some "/h", some ⟨some ⟨"Boulder", "CO"⟩⟩⟩⟩)
      (fun _ => .ok (some ⟨some ⟨some [⟨"Tonight", 40, "Clear"⟩], some [("temperature", "F")]⟩⟩))
      (fun _ => .ok (some ⟨some ⟨some [⟨"Now", 50, "Sunny"⟩, ⟨"Later", 51, "Sunny"⟩], none⟩⟩))).1
      = .ok
      { location := ⟨"Boulder", "CO"⟩,
        current := some ⟨"Now", 50, "Sunny"⟩,
        forecast := [⟨"Tonight", 40, "Clear"⟩],
        units := [("temperature", "F")] } := by
  have h := weather_snapshot_assembly
    ⟨some ⟨some "/f", some "/h", some ⟨some ⟨"Boulder", "CO"⟩⟩⟩⟩
    ⟨some "/f", some "/h", some ⟨some ⟨"Boulder", "CO"⟩⟩⟩
    (fun _ => .ok (some ⟨some ⟨some [⟨"Tonight", 40, "Clear"⟩], some [("temperature", "F")]⟩⟩))
    (fun _ => .ok (some ⟨some ⟨some [⟨"Now", 50, "Sunny"⟩, ⟨"Later", 51, "Sunny"⟩], none⟩⟩))
    ⟨some ⟨some [⟨"Tonight", 40, "Clear"⟩], some [("temperature", "F")]⟩⟩
    ⟨some ⟨some [⟨"Now", 50, "Sunny"⟩, ⟨"Later", 51, "Sunny"⟩], none⟩⟩
    rfl (by decide) (by decide) (by decide) (by decide) rfl rfl
  exact h

/-- C2: stage-1 validation fails fast, before any stage-2/3 fetch (the
fetch log stays empty): a missing `properties` object fails with
`invalidUpstreamShape`, a missing (or empty, hence falsy) forecast URL
with `missingForecastUrl`, a missing hourly URL with `missingHourlyUrl`,
and the three errors are pairwise distinct. -/
theorem pipeline_fail_fast
    (fetchForecast fetchHourly : String → Except String (Option ForecastData)) :
    (getWeatherData none fetchForecast fetchHourly =
        (.error .invalidUpstreamShape, [])) ∧
    (∀ pd : PointsData, pd.properties = none →
        getWeatherData (some pd) fetchForecast fetchHourly =
          (.error .invalidUpstreamShape, [])) ∧
    (∀ pd props, pd.properties = some props →
        optStrTruthy props.forecast = false →
        getWeatherData (some pd) fetchForecast fetchHourly =
          (.error .missingForecastUrl, [])) ∧
    (∀ pd props, pd.properties = some props →
        optStrTruthy props.forecast = true →
        optStrTruthy props.forecastHourly = false →
        getWeatherData (some pd) fetchForecast fetchHourly =
          (.error .missingHourlyUrl, [])) ∧
    (PipelineError.invalidUpstreamShape ≠ PipelineError.missingForecastUrl ∧
     PipelineError.invalidUpstreamShape ≠ PipelineError.missingHourlyUrl ∧
     PipelineError.missingForecastUrl ≠ PipelineError.missingHourlyUrl) := by
  refine ⟨by simp [getWeatherData], ?_, ?_, ?_, by decide⟩
  · intro pd hpd
    simp [getWeatherData, hpd]
  · intro pd props hpd hfor
    simp [getWeatherData, hpd, hfor]
  · intro pd props hpd hfor hhour
    simp [getWeatherData, hpd, hfor, hhour]

/-- Witness for C2: the three branches at concrete stage-1 responses. -/
theorem pipeline_fail_fast_witness :
    (getWeatherData (some ⟨none⟩) (fun _ => .error "boom") (fun _ => .error "boom") =
        (.error .invalidUpstreamShape, [])) ∧
    (getWeatherData (some ⟨some ⟨none, some "/h", none⟩⟩)
        (fun _ => .error "boom") (fun _ => .error "boom") =
        (.error .missingForecastUrl, [])) ∧
    (getWeatherData (some ⟨some ⟨some "/f", some "", none⟩⟩)
        (fun _ => .error "boom") (fun _ => .error "boom") =
        (.error .missingHourlyUrl, [])) := by
  refine ⟨?_, ?_, ?_⟩
  · exact (pipeline_fail_fast (fun _ => .error "boom") (fun _ => .error "boom")).2.1
      ⟨none⟩ rfl
  · exact (pipeline_fail_fast (fun _ => .error "boom") (fun _ => .error "boom")).2.2.1
      ⟨some ⟨none, some "/h", none⟩⟩ ⟨none, some "/h", none⟩ rfl (by decide)
  · exact (pipeline_fail_fast (fun _ => .error "boom") (fun _ => .error "boom")).2.2.2.1
      ⟨some ⟨some "/f", some "", none⟩⟩ ⟨some "/f", some "", none⟩ rfl (by decide) (by decide)

/-- C3 counterexample: the claim says coordinates are validated for
finiteness and range before the pipeline runs, but a latitude of `999`
(outside `[-90, 90]`) sails past the only check (presence) and reaches
the weather pipeline. -/
theorem coordinate_validation_cex :
    apiWeatherRoute (some ⟨1, "alice"⟩) (some "999") (some "0") =
      .weatherPipeline "999" "0" ∧
    ¬((999 : Int) ≤ 90) := by
  decide

/-- C3 as amended: the `GET /api/weather` route validates only presence
of `lat` and `lon` — a missing or empty parameter is rejected with a 400
before the pipeline runs, and any present values, range-violating or
non-numeric ones included, are handed to the weather pipeline with no
finiteness or range check. -/
theorem coordinate_presence_only
    (u : SessionUser) (lat lon : Option String) :
    (optStrTruthy lat = false ∨ optStrTruthy lon = false →
        apiWeatherRoute (some u) lat lon =
          .jsonError 400 "Latitude and longitude are required") ∧
    (∀ la lo, lat = some la → lon = some lo → la ≠ "" → lo ≠ "" →
        apiWeatherRoute (some u) lat lon = .weatherPipeline la lo) := by
  constructor
  · rintro (h | h) <;>
      simp [apiWeatherRoute, authGuard, apiWeatherHandler, h]
  · rintro la lo rfl rfl hla hlo
    have h1 : optStrTruthy (some la) = true := by
      simp [optStrTruthy, String.data]
      intro h
      exact hla (by cases la; simp_all)
    have h2 : optStrTruthy (some lo) = true := by
      simp [optStrTruthy, String.data]
      intro h
      exact hlo (by cases lo; simp_all)
    simp [apiWeatherRoute, authGuard, apiWeatherHandler, h1, h2]

/-- Witness for the amended C3: a missing longitude is a 400, while the
out-of-range pair (999, 0) reaches the pipeline. -/
theorem coordinate_presence_only_witness :
    apiWeatherRoute (some ⟨1, "alice"⟩) (some "40.0") none =
      .jsonError 400 "Latitude and longitude are required" ∧
    apiWeatherRoute (some ⟨1, "alice"⟩) (some "999") (some "0") =
      .weatherPipeline "999" "0" := by
  constructor
  · exact (coordinate_presence_only ⟨1, "alice"⟩ (some "40.0") none).1 (Or.inr rfl)
  · exact (coordinate_presence_only ⟨1, "alice"⟩ (some "999") (some "0")).2
      "999" "0" rfl rfl (by decide) (by decide)

/-- C4 counterexample: an unauthenticated request to the API route
`GET /api/weather` is answered with a redirect to `/login`, not with an
API-style rejection (an error-status JSON response): the guard does not
distinguish page routes from API routes. -/
theorem auth_guard_api_redirect_cex :
    apiWeatherRoute none (some "40.0") (some "-105.3") = .redirect "/login" ∧
    isApiRejection (apiWeatherRoute none (some "40.0") (some "-105.3")) = false := by
  decide

/-- C4 as amended: the auth guard prevents the handler from running for
every request without a session principal and responds with a redirect to
`/login` uniformly — for page routes and API routes such as
`GET /api/weather` alike — while requests carrying a session principal
pass through to the handler. -/
theorem auth_guard_behavior (handler : RouteResponse) (lat lon : Option String) :
    (authGuard none handler = .redirect "/login") ∧
    (∀ u, authGuard (some u) handler = handler) ∧
    (apiWeatherRoute none lat lon = .redirect "/login") ∧
    (∀ u, apiWeatherRoute (some u) lat lon = apiWeatherHandler lat lon) := by
  exact ⟨rfl, fun u => rfl, rfl, fun u => rfl⟩

/-- C6: a non-empty trimmed input without an `http://` or `https://`
scheme resolves against the fixed base host `https://api.weather.gov`
with exactly one slash between host and path: the result is the base
host, one `/`, then the input stripped of its own leading slash if it
had one. -/
theorem resolve_relative (t : String) (hne : t ≠ "")
    (h1 : strStartsWith t "http://" = false)
    (h2 : strStartsWith t "https://" = false) :
    (strStartsWith t "/" = true →
        (resolveUrl t).data = baseHost.data ++ '/' :: t.data.tail) ∧
    (strStartsWith t "/" = false →
        (resolveUrl t).data = baseHost.data ++ '/' :: t.data) := by
  constructor
  · intro hs
    have hhead : t.data = '/' :: t.data.tail := by
      cases ht : t.data with
      | nil =>
        rw [strStartsWith, ht] at hs
        exact absurd hs (by decide)
      | cons c cs =>
        rw [strStartsWith, show ("/" : String).data = ['/'] from rfl, ht] at hs
        simp only [List.isPrefixOf, List.isPrefixOf_nil_left, Bool.and_true,
          beq_iff_eq] at hs
        simp [← hs]
    simp only [resolveUrl, h1, h2, hs]
    simp only [Bool.or_self, Bool.false_eq_true, if_false, if_true,
      String.data_append]
    conv_lhs => rw [List.append_nil, hhead]
  · intro hs
    simp only [resolveUrl, h1, h2, hs]
    simp only [Bool.or_self, Bool.false_eq_true, if_false, String.data_append]
    simp

/-- Witness for C6: both shapes, a slash-led and a bare relative path. -/
theorem resolve_relative_witness :
    (resolveUrl "/points/40,-105").data =
      baseHost.data ++ '/' :: "/points/40,-105".data.tail ∧
    (resolveUrl "points/40,-105").data = baseHost.data ++ '/' :: "points/40,-105".data := by
  constructor
  · exact (resolve_relative "/points/40,-105" (by decide) (by decide) (by decide)).1
      (by decide)
  · exact (resolve_relative "points/40,-105" (by decide) (by decide) (by decide)).2
      (by decide)

/-- C8: a missing, empty, or all-whitespace input fails with an
`invalidInput` error and the request log stays empty — no request is
constructed or issued. -/
theorem fetch_invalid_input (env : NetEnv) (fuel : Nat) (s : String)
    (h : strTrim s = "") :
    (makeRequest env fuel none = (.error (.invalidInput "URL is required"), [])) ∧
    (strEmpty s = true →
        makeRequest env fuel (some s) = (.error (.invalidInput "URL is required"), [])) ∧
    (strEmpty s = false →
        makeRequest env fuel (some s) =
          (.error (.invalidInput "URL is empty after trimming"), [])) := by
  refine ⟨?_, ?_, ?_⟩
  · rw [makeRequest_eq]
    rfl
  · intro hse
    rw [makeRequest_eq]
    simp [buildRequest, hse]
  · intro hse
    rw [makeRequest_eq]
    have hni : s.data ≠ [] := by
      intro hnil
      simp [strEmpty, hnil] at hse
    simp [buildRequest, hse, h, strEmpty, hni]

/-- Witness for C8: the missing input and an all-whitespace input. -/
theorem fetch_invalid_input_witness :
    makeRequest constEnv 3 none = (.error (.invalidInput "URL is required"), []) ∧
    makeRequest constEnv 3 (some "   ") =
      (.error (.invalidInput "URL is empty after trimming"), []) := by
  have h := fetch_invalid_input constEnv 3 "   " (by decide)
  exact ⟨h.1, h.2.2 (by decide)⟩

/-- C5: on a response with a status in 300–399 and a (non-empty)
`Location` header, `makeRequest` re-issues the fetch against the
`Location` target and returns its eventual resolution as its own result,
prepending only the already-issued request to the log; the body of the
redirect response is never consulted.  The fuel parameter is the
embedding of the uncapped source recursion: the equation holds for every
fuel value. -/
theorem fetch_follows_redirect (env : NetEnv) (fuel : Nat) (u : Option String)
    (options : OutboundRequest) (l : String)
    (hbuild : buildRequest u = .ok options)
    (h3 : 300 ≤ (env.net options).statusCode)
    (h4 : (env.net options).statusCode < 400)
    (hloc : (env.net options).location = some l)
    (hl : l ≠ "") :
    makeRequest env (fuel + 1) u =
      ((makeRequest env fuel (some l)).1,
        options :: (makeRequest env fuel (some l)).2) := by
  have ht := optStrTruthy_of_ne l hl
  rw [makeRequest_eq]
  simp [hbuild, hloc, ht, h3, h4]

/-- Witness for C5: the stage-1 fetch for `(40.0066, -105.2633)` receives
a 301 to a canonical grid path and resolves through to that target. -/
theorem fetch_follows_redirect_witness :
    makeRequest redirectEnv 1 (some "/points/40.0066,-105.2633") =
      ((makeRequest redirectEnv 0 (some "/gridpoints/BOU/53,74")).1,
        Weather.requestOptions
          ⟨"https", "", "api.weather.gov", none, "/points/40.0066,-105.2633", "", ""⟩ ::
        (makeRequest redirectEnv 0 (some "/gridpoints/BOU/53,74")).2) := by
  exact fetch_follows_redirect redirectEnv 0 (some "/points/40.0066,-105.2633")
    (Weather.requestOptions
      ⟨"https", "", "api.weather.gov", none, "/points/40.0066,-105.2633", "", ""⟩)
    "/gridpoints/BOU/53,74" rfl (by decide) (by decide) (by decide) (by decide)

/-- C7: on a completed response whose status is neither 200 nor a
redirect (300–399 with a truthy `Location`), `makeRequest` fails with an
`upstreamHttp` error carrying the status code and the first 200
characters of the body, whose length is therefore at most 200, and
returns no value. -/
theorem fetch_http_error (env : NetEnv) (fuel : Nat) (u : Option String)
    (options : OutboundRequest)
    (hbuild : buildRequest u = .ok options)
    (h200 : (env.net options).statusCode ≠ 200)
    (hred : ¬(300 ≤ (env.net options).statusCode ∧
              (env.net options).statusCode < 400 ∧
              optStrTruthy (env.net options).location = true)) :
    makeRequest env fuel u =
      (.error (.upstreamHttp (env.net options).statusCode
          (String.mk ((env.net options).body.data.take 200))), [options]) ∧
    (String.mk ((env.net options).body.data.take 200)).length ≤ 200 := by
  constructor
  · rw [makeRequest_eq]
    simp [hbuild, hred, h200]
  · show ((env.net options).body.data.take 200).length ≤ 200
    rw [List.length_take]
    exact Nat.min_le_left _ _

/-- Witness for C7: a uniform 404 upstream. -/
theorem fetch_http_error_witness :
    makeRequest notFoundEnv 5 (some "/points/1,2") =
      (.error (.upstreamHttp 404 "Not Found"),
        [Weather.requestOptions
          ⟨"https", "", "api.weather.gov", none, "/points/1,2", "", ""⟩]) := by
  exact (fetch_http_error notFoundEnv 5 (some "/points/1,2")
    (Weather.requestOptions ⟨"https", "", "api.weather.gov", none, "/points/1,2", "", ""⟩)
    rfl (by decide) (by decide)).1

/-- C9: the owning-user check precedes the delete: a missing row is a
404 and a non-owner request is a 403, each leaving the posts table and
file system untouched; an owner request deletes the row and reports
success, and the outcome is the same whether or not the image-file
unlink succeeds (file errors are logged, not surfaced). -/
theorem delete_post_owner_check (userId postId : Nat)
    (posts : List Post) (fsState : FileSystem) :
    (findPost posts postId = none →
        deletePostRoute userId postId posts fsState = (.notFound, posts, fsState)) ∧
    (∀ post, findPost posts postId = some post → post.user_id ≠ userId →
        deletePostRoute userId postId posts fsState = (.forbidden, posts, fsState)) ∧
    (∀ post, findPost posts postId = some post → post.user_id = userId →
        (deletePostRoute userId postId posts fsState).1 = .success ∧
        (deletePostRoute userId postId posts fsState).2.1 =
          posts.filter (fun p => p.id != postId)) ∧
    ((deletePostRoute userId postId posts { fsState with unlinkFails := true }).1 =
      (deletePostRoute userId postId posts { fsState with unlinkFails := false }).1) := by
  refine ⟨?_, ?_, ?_, ?_⟩
  · intro hnone
    simp [deletePostRoute, hnone]
  · intro post hpost hne
    simp [deletePostRoute, hpost, hne]
  · intro post hpost heq
    simp [deletePostRoute, hpost, heq]
  · cases hfind : findPost posts postId with
    | none => simp [deletePostRoute, hfind]
    | some post =>
      by_cases hu : post.user_id = userId <;>
        simp [deletePostRoute, hfind, hu]

/-- Witness for C9: one row owned by user 7; user 8 is refused with the
table unchanged, user 7 succeeds even though the unlink fails. -/
theorem delete_post_owner_check_witness :
    deletePostRoute 8 1 [⟨1, 7, some "img.png"⟩] ⟨["img.png"], false⟩ =
      (.forbidden, [⟨1, 7, some "img.png"⟩], ⟨["img.png"], false⟩) ∧
    (deletePostRoute 7 1 [⟨1, 7, some "img.png"⟩] ⟨["img.png"], true⟩).1 = .success ∧
    (deletePostRoute 7 1 [⟨1, 7, some "img.png"⟩] ⟨["img.png"], true⟩).2.1 = [] := by
  refine ⟨?_, ?_, ?_⟩
  · exact (delete_post_owner_check 8 1 [⟨1, 7, some "img.png"⟩] ⟨["img.png"], false⟩).2.1
      ⟨1, 7, some "img.png"⟩ (by decide) (by decide)
  · exact ((delete_post_owner_check 7 1 [⟨1, 7, some "img.png"⟩] ⟨["img.png"], true⟩).2.2.1
      ⟨1, 7, some "img.png"⟩ (by decide) rfl).1
  · exact ((delete_post_owner_check 7 1 [⟨1, 7, some "img.png"⟩] ⟨["img.png"], true⟩).2.2.1
      ⟨1, 7, some "img.png"⟩ (by decide) rfl).2

/-- Every successfully-built request carries the transport constants:
HTTPS, port 443, method GET, the fixed headers. -/
theorem buildRequest_fields (u : Option String) (r : OutboundRequest)
    (h : buildRequest u = .ok r) :
    r.scheme = "https" ∧ r.port = 443 ∧ r.method = "GET" ∧ r.headers = requestHeaders := by
  cases u with
  | none => simp [buildRequest] at h
  | some s =>
    simp only [buildRequest] at h
    split at h
    · simp at h
    · split at h
      · simp at h
      · cases hp : parseUrl (resolveUrl (strTrim s)) with
        | none => simp [hp] at h
        | some url =>
          simp [hp] at h
          rw [← h]
          exact ⟨rfl, rfl, rfl, rfl⟩

/-- C10: the outbound request is built from only the parsed hostname,
pathname and search, is always HTTPS on the default port 443 — an
`http://` input included — and any explicit port, credentials or
fragment of the URL is silently discarded; moreover every request in the
log of a run, redirect targets included, is HTTPS on port 443. -/
theorem fetch_https_only (env : NetEnv) (fuel : Nat) (u : Option String)
    (s : String) (url : ParsedUrl)
    (hs : strEmpty s = false)
    (hts : strEmpty (strTrim s) = false)
    (hparse : parseUrl (resolveUrl (strTrim s)) = some url) :
    buildRequest (some s) =
      .ok { scheme := "https", port := 443, hostname := url.hostname,
            path := url.pathname ++ url.search, method := "GET",
            headers := requestHeaders } ∧
    ∀ r ∈ (makeRequest env fuel u).2,
      r.scheme = "https" ∧ r.port = 443 ∧ r.method = "GET" := by
  constructor
  · simp [buildRequest, hs, hts, hparse, requestOptions]
  · induction fuel generalizing u with
    | zero =>
      intro r hr
      rw [makeRequest_eq] at hr
      cases hb : buildRequest u with
      | error e => simp [hb] at hr
      | ok options =>
        have hfields := buildRequest_fields u options hb
        simp only [hb] at hr
        split at hr
        · simp at hr
          rw [hr]
          exact ⟨hfields.1, hfields.2.1, hfields.2.2.1⟩
        · split at hr
          · split at hr <;>
              (simp at hr; rw [hr]; exact ⟨hfields.1, hfields.2.1, hfields.2.2.1⟩)
          · simp at hr
            rw [hr]
            exact ⟨hfields.1, hfields.2.1, hfields.2.2.1⟩
    | succ fuel ih =>
      intro r hr
      rw [makeRequest_eq] at hr
      cases hb : buildRequest u with
      | error e => simp [hb] at hr
      | ok options =>
        have hfields := buildRequest_fields u options hb
        simp only [hb] at hr
        split at hr
        · simp at hr
          cases hr with
          | inl hr =>
            rw [hr]
            exact ⟨hfields.1, hfields.2.1, hfields.2.2.1⟩
          | inr hr => exact ih _ r hr
        · split at hr
          · split at hr <;>
              (simp at hr; rw [hr]; exact ⟨hfields.1, hfields.2.1, hfields.2.2.1⟩)
          · simp at hr
            rw [hr]
            exact ⟨hfields.1, hfields.2.1, hfields.2.2.1⟩

/-- Witness for C10: an `http://` URL carrying credentials, an explicit
port and a fragment is nevertheless requested over HTTPS on 443, with
only hostname, path and query retained. -/
theorem fetch_https_only_witness :
    buildRequest (some "http://user:pw@example.com:8080/a?b=c#frag") =
      .ok { scheme := "https", port := 443, hostname := "example.com",
            path := "/a?b=c", method := "GET", headers := requestHeaders } := by
  exact (fetch_https_only constEnv 0 none "http://user:pw@example.com:8080/a?b=c#frag"
    ⟨"http", "user:pw", "example.com", some "8080", "/a", "?b=c", "#frag"⟩
    (by decide) (by decide) (by decide)).1

end Theorems
